import Mathlib

/-!
Shallow embedding of the LocalAI backend-lifecycle code under verification:
the Dolly transformers backend wrapper (Load / Predict / PredictStream),
the model-gallery HTTP endpoints (apply, job status, add gallery), and the
CLI commands (`run`, `models list`, process exit handling).

Go side effects are made explicit: channel operations on the streaming
results channel become a list of `ChanEvent`s, log/print calls become lists
of strings, and the `error` type becomes `Option String` (with `none` for
the nil error). Functions from external libraries (the underlying
`transformers.NewDolly` constructor, `dolly.Predict`, `uuid.NewUUID`,
`time.ParseDuration`, `startup.Startup`, …) are passed in as explicit
arguments or oracles, so each embedded function is a pure function of the
code's inputs and of those oracles' results.
-/

namespace LocalAI

/-! ### Dolly backend wrapper (`pkg/backend/llm/transformers`, `dolly.go`) -/

/-- The `pb.StateResponse` states of a backend (`base.Base.State`). -/
inductive BackendState where
  | UNINITIALIZED
  | BUSY
  | READY
  | ERROR
  deriving DecidableEq, Repr

/-- The in-memory state of a `Dolly` wrapper: the embedded `base.Base` state
and the `dolly` model pointer (`none` models a nil pointer). The model
pointer is abstracted as a `Nat` identity. -/
structure DollyState where
  state : BackendState
  dolly : Option Nat
  deriving DecidableEq, Repr

/-- Result of `Dolly.Load`: the updated wrapper state, the warnings logged,
and the returned `error`. -/
structure LoadOutcome where
  llm : DollyState
  warnings : List String
  ret : Option String
  deriving DecidableEq, Repr

/-- Embedding of `Dolly.Load`. The external constructor
`transformers.NewDolly(opts.ModelFile)` returns a `(model, err)` pair,
passed here as `ctorModel`/`ctorErr`. The code logs a warning when the
state is not UNINITIALIZED, then unconditionally stores the constructor's
model in `llm.dolly` and returns the constructor's error. -/
def Dolly.Load (llm : DollyState) (modelName : String)
    (ctorModel : Option Nat) (ctorErr : Option String) : LoadOutcome :=
  let warnings :=
    if llm.state ≠ BackendState.UNINITIALIZED then
      ["dolly backend loading " ++ modelName ++ " while already in state!"]
    else []
  { llm := { llm with dolly := ctorModel }
    warnings := warnings
    ret := ctorErr }

/-- One operation performed on the `results chan string` of `PredictStream`. -/
inductive ChanEvent where
  | send (s : String)
  | close
  deriving DecidableEq, Repr

/-- Result of `Dolly.PredictStream`: everything printed to stdout, the
ordered operations performed on the downstream `results` channel by the
spawned goroutine, and the `error` value `PredictStream` itself returns. -/
structure StreamOutcome where
  printed : List String
  events : List ChanEvent
  ret : Option String
  deriving DecidableEq, Repr

/-- Embedding of `Dolly.PredictStream`. The underlying synchronous
`llm.dolly.Predict` call returns a `(res, err)` pair, passed here as
`res`/`err`. The goroutine prints the error (if any), sends `res` on the
channel, and closes the channel; `PredictStream` returns nil. -/
def Dolly.PredictStream (res : String) (err : Option String) : StreamOutcome :=
  { printed := match err with
      | some e => ["err: " ++ e]
      | none => []
    events := [ChanEvent.send res, ChanEvent.close]
    ret := none }

/-- Number of `close` operations in a channel-event trace. -/
def countCloses (events : List ChanEvent) : Nat :=
  events.countP (fun e => e = ChanEvent.close)

/-! ### Model-gallery HTTP endpoints
(`core/http/endpoints/localai`, `ModelGalleryService`) -/

/-- A `gallery.Gallery`: a named remote index with a URL. -/
structure Gallery where
  name : String
  url : String
  deriving DecidableEq, Repr

/-- The request body of the apply-model endpoint (`GalleryModel` in the
handler file): an `id` field plus the embedded `gallery.GalleryModel`
payload, abstracted as a `Nat` identity. -/
structure GalleryModelInput where
  id : String
  galleryModel : Nat
  deriving DecidableEq, Repr

/-- A `gallery.GalleryOp` install job as enqueued on the applier channel. -/
structure GalleryOp where
  req : Nat
  opId : String
  galleryName : String
  galleries : List Gallery
  deriving DecidableEq, Repr

/-- The JSON object returned by the apply-model endpoint:
`{uuid: ..., status: ...}`. -/
structure ApplyResponse where
  uuid : String
  statusURL : String
  deriving DecidableEq, Repr

/-- Embedding of `ModelGalleryService.ApplyModelGalleryEndpoint`. `body` is
the parsed request body (`none` models a `BodyParser` failure, in which
case the handler returns the parse error before enqueuing anything);
`uuidStr` is the fresh UUID produced by `uuid.NewUUID()`; `baseURL` is
`c.BaseURL()`. Returns the list of ops sent on `mgs.galleryApplier.C` and
the response (`none` when the handler returned an error instead). -/
def ApplyModelGalleryEndpoint (mgsGalleries : List Gallery)
    (body : Option GalleryModelInput) (uuidStr baseURL : String) :
    List GalleryOp × Option ApplyResponse :=
  match body with
  | none => ([], none)
  | some input =>
    ([{ req := input.galleryModel
        opId := uuidStr
        galleryName := input.id
        galleries := mgsGalleries }],
     some { uuid := uuidStr
            statusURL := baseURL ++ "/models/jobs/" ++ uuidStr })

/-- A job-status record held by the gallery applier, abstracted as a `Nat`
identity (the handler serializes it opaquely). -/
abbrev OpStatus := Nat

/-- Embedding of `ModelGalleryService.GetOpStatusEndpoint`. `getStatus` is
the applier's `GetStatus` map lookup; the handler returns the status as
JSON when one exists and an error otherwise. -/
def GetOpStatusEndpoint (getStatus : String → Option OpStatus)
    (uuidParam : String) : Except String OpStatus :=
  match getStatus uuidParam with
  | none => Except.error "could not find any status for ID"
  | some s => Except.ok s

/-- Embedding of `ModelGalleryService.AddModelGalleryEndpoint` for a parsed
body `input`. Returns the handler's result (the list of galleries whose
serialization is sent as the response body, or the duplicate-name error)
together with the in-memory `mgs.galleries` list after the handler runs.
The code marshals `mgs.galleries` *before* appending `input` to it. -/
def AddModelGalleryEndpoint (galleries : List Gallery) (input : Gallery) :
    Except String (List Gallery) × List Gallery :=
  if galleries.any (fun g => g.name = input.name) then
    (Except.error (input.name ++ " already exists"), galleries)
  else
    (Except.ok galleries, galleries ++ [input])

/-! ### CLI: `models list` (`main.go`, `ModelsList.Run`) -/

/-- One entry of `gallery.AvailableGalleryModels`: the gallery it came
from, the model name, and whether it is installed locally. -/
structure GalleryModelEntry where
  galleryName : String
  name : String
  installed : Bool
  deriving DecidableEq, Repr

/-- The line `ModelsList.Run` prints for one model:
`" * <gallery>@<name> (installed)"` when installed, `" - <gallery>@<name>"`
otherwise (the trailing newline of `Printf` is the line separator). -/
def modelLine (m : GalleryModelEntry) : String :=
  if m.installed then
    " * " ++ m.galleryName ++ "@" ++ m.name ++ " (installed)"
  else
    " - " ++ m.galleryName ++ "@" ++ m.name

/-- Embedding of the printing loop of `ModelsList.Run`: the ordered list of
lines printed for the models returned by the gallery listing. -/
def modelsListOutput (models : List GalleryModelEntry) : List String :=
  models.map modelLine

/-- Whether a printed line carries the installed marker: it starts with the
three characters `" * "`. -/
def markedWithStar (line : String) : Bool :=
  line.data.take 3 = [' ', '*', ' ']

/-! ### CLI: the `run` command (`core/cli/run.go`, `RunCMD.Run`) -/

/-- The slice expressions `v[:strings.IndexByte(v, ':')]` and
`v[strings.IndexByte(v, ':')+1:]` of the external-backend loop, on the
character list of `v`. When `v` holds no `':'`, `IndexByte` returns `-1`
and `v[:-1]` panics with a slice-bounds error; that run of the loop body is
modelled as `none`. -/
def splitAtFirstColon : List Char → Option (List Char × List Char)
  | [] => none
  | c :: rest =>
    if c = ':' then some ([], rest)
    else
      match splitAtFirstColon rest with
      | none => none
      | some (b, u) => some (c :: b, u)

/-- One iteration of the external-backend loop on entry `v`: the
`(backend, uri)` pair passed to `config.WithExternalBackend`, or `none`
when the iteration panics because `v` holds no `':'`. -/
def splitExternalBackendEntry (v : String) : Option (String × String) :=
  match splitAtFirstColon v.data with
  | none => none
  | some (b, u) => some (String.mk b, String.mk u)

/-- The external-backend loop of `RunCMD.Run`: each entry `v` is split at
its first `':'` into a backend name and an address and registered via
`config.WithExternalBackend(backend, uri)`. `none` models the panic raised
on an entry without a `':'`. -/
def registerExternalBackends : List String → Option (List (String × String))
  | [] => some []
  | v :: rest =>
    match splitExternalBackendEntry v with
    | none => none
    | some p =>
      match registerExternalBackends rest with
      | none => none
      | some l => some (p :: l)

/-- The fields of `RunCMD` that drive the control flow embedded here. -/
structure RunCfg where
  peer2peer : Bool
  enableWatchdogIdle : Bool
  watchdogIdleTimeout : String
  enableWatchdogBusy : Bool
  watchdogBusyTimeout : String
  externalGRPCBackends : List String
  preloadBackendOnly : Bool
  address : String
  deriving Repr

/-- The externally observable steps of `RunCMD.Run` relevant here:
running `startup.Startup`, constructing the HTTP application via
`http.App`, and listening on an address. -/
inductive RunEffect where
  | startupStep
  | httpConstruct
  | listen (addr : String)
  deriving DecidableEq, Repr

/-- How `RunCMD.Run` terminated: returned nil, returned an error, or died
in the out-of-bounds slice panic of the external-backend loop. -/
inductive RunResult where
  | ok
  | error (e : String)
  | panicked
  deriving DecidableEq, Repr

/-- Trace of one `RunCMD.Run` invocation: the external backends registered
by the loop (meaningful only when the run did not panic), the observable
steps in order, and the termination. -/
structure RunTrace where
  externalBackends : List (String × String)
  effects : List RunEffect
  result : RunResult
  deriving DecidableEq, Repr

/-- Embedding of `RunCMD.Run`. External calls are oracles:
`parseDuration` is `time.ParseDuration`; `p2pDiscoveryErr` the result of
`p2p.LLamaCPPRPCServerDiscoverer` (consulted only when p2p mode is on);
`startupErr`, `httpAppErr`, `listenErr` the errors of `startup.Startup`,
`http.App` and `appHTTP.Listen`. The code: runs p2p discovery, parses the
watchdog timeouts (returning their parse errors), registers external gRPC
backends (panicking on an entry without `':'`), and then either — with
`PreloadBackendOnly` — runs startup and returns its error directly, or
runs startup (wrapping its error), constructs the HTTP app, and listens. -/
def RunCMD.Run (cfg : RunCfg) (parseDuration : String → Except String Nat)
    (p2pDiscoveryErr : Option String) (startupErr : Option String)
    (httpAppErr : Option String) (listenErr : Option String) : RunTrace :=
  match (if cfg.peer2peer then p2pDiscoveryErr else none) with
  | some e => { externalBackends := [], effects := [], result := RunResult.error e }
  | none =>
  match (if cfg.enableWatchdogIdle then (parseDuration cfg.watchdogIdleTimeout).map (fun _ => ())
         else Except.ok ()) with
  | Except.error e => { externalBackends := [], effects := [], result := RunResult.error e }
  | Except.ok () =>
  match (if cfg.enableWatchdogBusy then (parseDuration cfg.watchdogBusyTimeout).map (fun _ => ())
         else Except.ok ()) with
  | Except.error e => { externalBackends := [], effects := [], result := RunResult.error e }
  | Except.ok () =>
  match registerExternalBackends cfg.externalGRPCBackends with
  | none => { externalBackends := [], effects := [], result := RunResult.panicked }
  | some registered =>
  if cfg.preloadBackendOnly then
    { externalBackends := registered
      effects := [RunEffect.startupStep]
      result := match startupErr with
        | some e => RunResult.error e
        | none => RunResult.ok }
  else
    match startupErr with
    | some e =>
      { externalBackends := registered
        effects := [RunEffect.startupStep]
        result := RunResult.error ("failed basic startup tasks with error " ++ e) }
    | none =>
    match httpAppErr with
    | some e =>
      { externalBackends := registered
        effects := [RunEffect.startupStep, RunEffect.httpConstruct]
        result := RunResult.error e }
    | none =>
      { externalBackends := registered
        effects := [RunEffect.startupStep, RunEffect.httpConstruct,
                    RunEffect.listen cfg.address]
        result := match listenErr with
          | some e => RunResult.error e
          | none => RunResult.ok }

/-! ### `main` process exit (`main.go`, `func main`) -/

/-- Embedding of the process exit status of `main`. A goroutine installed
at the top of `main` waits for SIGINT/SIGTERM and calls `os.Exit(1)` when
one arrives; otherwise `main` runs the command and passes its error to
kong's `ctx.FatalIfErrorf`, which exits with status 1 on a non-nil error
and does nothing on nil, letting `main` return (exit status 0). -/
def mainExitStatus (signalReceived : Bool) (runErr : Option String) : Nat :=
  if signalReceived then 1
  else
    match runErr with
    | some _ => 1
    | none => 0

/-! ## Helper lemmas -/

theorem splitAtFirstColon_eq_none_iff (l : List Char) :
    splitAtFirstColon l = none ↔ ':' ∉ l := by
  induction l with
  | nil => simp [splitAtFirstColon]
  | cons c rest ih =>
    simp only [splitAtFirstColon]
    by_cases hc : c = ':'
    · subst hc; simp
    · simp only [if_neg hc]
      cases h : splitAtFirstColon rest with
      | none =>
        simp only [List.mem_cons, not_or]
        constructor
        · intro _
          exact ⟨fun hh => hc hh.symm, (ih.mp h)⟩
        · intro _; trivial
      | some p =>
        simp only [List.mem_cons, not_or]
        constructor
        · intro hcontra; cases hcontra
        · intro ⟨_, hrest⟩
          rw [← ih] at hrest
          rw [h] at hrest
          cases hrest

theorem splitAtFirstColon_eq_some (l b u : List Char)
    (h : splitAtFirstColon l = some (b, u)) :
    l = b ++ ':' :: u ∧ ':' ∉ b := by
  induction l generalizing b u with
  | nil => simp [splitAtFirstColon] at h
  | cons c rest ih =>
    simp only [splitAtFirstColon] at h
    by_cases hc : c = ':'
    · subst hc
      rw [if_pos rfl] at h
      injection h with h
      injection h with hb hu
      subst hb; subst hu; simp
    · rw [if_neg hc] at h
      cases hr : splitAtFirstColon rest with
      | none => rw [hr] at h; cases h
      | some p =>
        rw [hr] at h
        obtain ⟨b0, u0⟩ := p
        injection h with h
        injection h with hb hu
        obtain ⟨hl, hnb⟩ := ih b0 u0 hr
        subst hb; subst hu; subst hl
        simp only [List.cons_append, List.cons.injEq, true_and, List.mem_cons, not_or]
        exact ⟨fun hh => hc hh.symm, hnb⟩

theorem splitExternalBackendEntry_eq_none_iff (v : String) :
    splitExternalBackendEntry v = none ↔ ':' ∉ v.data := by
  unfold splitExternalBackendEntry
  cases hs : splitAtFirstColon v.data with
  | none => simp [(splitAtFirstColon_eq_none_iff _).mp hs]
  | some p =>
    obtain ⟨b, u⟩ := p
    obtain ⟨hl, _⟩ := splitAtFirstColon_eq_some _ _ _ hs
    simp [hl]

theorem registerExternalBackends_eq_none_iff (entries : List String) :
    registerExternalBackends entries = none ↔ ∃ w ∈ entries, ':' ∉ w.data := by
  induction entries with
  | nil => simp [registerExternalBackends]
  | cons v rest ih =>
    simp only [registerExternalBackends]
    cases hv : splitExternalBackendEntry v with
    | none =>
      have h1 : ':' ∉ v.data := (splitExternalBackendEntry_eq_none_iff v).mp hv
      simp only [List.mem_cons]
      exact ⟨fun _ => ⟨v, Or.inl rfl, h1⟩, fun _ => trivial⟩
    | some p =>
      have h1 : ¬(':' ∉ v.data) := by
        rw [← splitExternalBackendEntry_eq_none_iff v, hv]; simp
      cases hr : registerExternalBackends rest with
      | none =>
        obtain ⟨w, hw, hwc⟩ := ih.mp hr
        simp only [List.mem_cons]
        exact ⟨fun _ => ⟨w, Or.inr hw, hwc⟩, fun _ => trivial⟩
      | some l =>
        simp only [List.mem_cons]
        constructor
        · intro hcontra; cases hcontra
        · rintro ⟨w, hw | hw, hwc⟩
          · subst hw; exact absurd hwc h1
          · exact absurd (ih.mpr ⟨w, hw, hwc⟩) (by simp [hr])

/-! ## Claim theorems -/

/-- C1: every invocation of `Dolly.PredictStream` performs exactly one
`close` on the downstream results channel, whatever the result and error
of the underlying `Predict` call were. -/
theorem predictStream_closes_exactly_once (res : String) (err : Option String) :
    countCloses (Dolly.PredictStream res err).events = 1 := by
  cases err <;> rfl

/-- C2 counterexample: with an erroring underlying `Predict` (error
`"boom"`, empty result), `PredictStream` delivers no error to the
consumer: it returns nil and the channel trace is a normal `send` of the
empty result followed by `close` — the stream does not end with an error. -/
theorem predictStream_error_counterexample :
    (Dolly.PredictStream "" (some "boom")).ret = none ∧
    (Dolly.PredictStream "" (some "boom")).events =
      [ChanEvent.send "", ChanEvent.close] :=
  ⟨rfl, rfl⟩

/-- C2 amended: when the underlying `Predict` returns an error, the error
is only printed to standard output; the (possibly empty) result string is
still sent on the channel as a normal chunk, the channel is closed, and
`PredictStream` returns nil, so no error reaches the consumer. -/
theorem predictStream_error_swallowed (res e : String) :
    (Dolly.PredictStream res (some e)).printed = ["err: " ++ e] ∧
    (Dolly.PredictStream res (some e)).events =
      [ChanEvent.send res, ChanEvent.close] ∧
    (Dolly.PredictStream res (some e)).ret = none :=
  ⟨rfl, rfl, rfl⟩

/-- C10: calling `Dolly.Load` on an instance whose state is not
UNINITIALIZED does not fail on account of the prior state: a warning is
logged, the model pointer is overwritten with the constructor's result,
the state is left as it was, and only the constructor's error is
returned. -/
theorem dollyLoad_ignores_prior_state (llm : DollyState) (modelName : String)
    (ctorModel : Option Nat) (ctorErr : Option String)
    (h : llm.state ≠ BackendState.UNINITIALIZED) :
    (Dolly.Load llm modelName ctorModel ctorErr).warnings ≠ [] ∧
    (Dolly.Load llm modelName ctorModel ctorErr).llm.dolly = ctorModel ∧
    (Dolly.Load llm modelName ctorModel ctorErr).llm.state = llm.state ∧
    (Dolly.Load llm modelName ctorModel ctorErr).ret = ctorErr := by
  refine ⟨?_, rfl, rfl, rfl⟩
  simp [Dolly.Load, h]

/-- C10 witness: `dollyLoad_ignores_prior_state` at a READY instance whose
constructor fails. -/
theorem dollyLoad_ignores_prior_state_witness :
    (⟨BackendState.READY, some 0⟩ : DollyState).state ≠ BackendState.UNINITIALIZED ∧
    ((Dolly.Load ⟨BackendState.READY, some 0⟩ "gpt4all-j" (some 1) (some "boom")).warnings ≠ [] ∧
     (Dolly.Load ⟨BackendState.READY, some 0⟩ "gpt4all-j" (some 1) (some "boom")).llm.dolly = some 1 ∧
     (Dolly.Load ⟨BackendState.READY, some 0⟩ "gpt4all-j" (some 1) (some "boom")).llm.state = BackendState.READY ∧
     (Dolly.Load ⟨BackendState.READY, some 0⟩ "gpt4all-j" (some 1) (some "boom")).ret = some "boom") :=
  ⟨by decide,
   dollyLoad_ignores_prior_state ⟨BackendState.READY, some 0⟩ "gpt4all-j"
     (some 1) (some "boom") (by decide)⟩

/-- C3: for a well-formed (successfully parsed) request body, the
apply-model endpoint enqueues exactly one install job on the applier
channel, carrying the fresh UUID, and returns a JSON object whose `uuid`
field is that UUID and whose `status` field is the polling URL
`<baseURL>/models/jobs/<uuid>`. -/
theorem applyModel_enqueues_one_job (mgsGalleries : List Gallery)
    (input : GalleryModelInput) (uuidStr baseURL : String) :
    (ApplyModelGalleryEndpoint mgsGalleries (some input) uuidStr baseURL).1 =
      [{ req := input.galleryModel, opId := uuidStr, galleryName := input.id,
         galleries := mgsGalleries }] ∧
    (ApplyModelGalleryEndpoint mgsGalleries (some input) uuidStr baseURL).2 =
      some { uuid := uuidStr, statusURL := baseURL ++ "/models/jobs/" ++ uuidStr } :=
  ⟨rfl, rfl⟩

/-- C4: when the gallery applier holds a status for the requested UUID the
job-status endpoint returns that status; when it holds none the endpoint
returns an error and no status body. -/
theorem getOpStatus_found_or_error (getStatus : String → Option OpStatus)
    (u : String) :
    (∀ s, getStatus u = some s → GetOpStatusEndpoint getStatus u = Except.ok s) ∧
    (getStatus u = none →
      GetOpStatusEndpoint getStatus u =
        Except.error "could not find any status for ID") := by
  constructor
  · intro s hs; unfold GetOpStatusEndpoint; rw [hs]
  · intro h; unfold GetOpStatusEndpoint; rw [h]

/-- C4 witness: `getOpStatus_found_or_error` at a status map holding UUID
`"job-1"` only. -/
theorem getOpStatus_found_or_error_witness :
    GetOpStatusEndpoint (fun u => if u = "job-1" then some 7 else none) "job-1" =
      Except.ok 7 ∧
    GetOpStatusEndpoint (fun u => if u = "job-1" then some 7 else none) "job-2" =
      Except.error "could not find any status for ID" :=
  ⟨(getOpStatus_found_or_error (fun u => if u = "job-1" then some 7 else none)
      "job-1").1 7 (by decide),
   (getOpStatus_found_or_error (fun u => if u = "job-1" then some 7 else none)
      "job-2").2 (by decide)⟩

/-- The line printed for a model starts with the `" * "` marker exactly
when the model is installed. -/
theorem markedWithStar_modelLine (m : GalleryModelEntry) :
    markedWithStar (modelLine m) = m.installed := by
  cases h : m.installed <;>
    simp [modelLine, markedWithStar, h, String.data_append]

/-- C5: `models list` prints one line per model returned by the gallery
listing, and a model's own line carries the `" * "` installed marker if
and only if the model is installed. -/
theorem modelsList_star_iff_installed (models : List GalleryModelEntry) :
    (modelsListOutput models).length = models.length ∧
    ∀ p ∈ models.zip (modelsListOutput models),
      markedWithStar p.2 = p.1.installed := by
  refine ⟨by simp [modelsListOutput], ?_⟩
  induction models with
  | nil => intro p hp; cases hp
  | cons m rest ih =>
    intro p hp
    simp only [modelsListOutput, List.map_cons, List.zip_cons_cons,
      List.mem_cons] at hp
    rcases hp with h | h
    · subst h; exact markedWithStar_modelLine m
    · exact ih p (by simpa [modelsListOutput] using h)

/-- C5 witness: `modelsList_star_iff_installed` on a two-model listing with
one installed and one uninstalled model. -/
theorem modelsList_star_iff_installed_witness :
    (modelsListOutput [⟨"localai", "bert", true⟩, ⟨"localai", "rwkv", false⟩]).length = 2 ∧
    markedWithStar (modelLine ⟨"localai", "bert", true⟩) = true ∧
    markedWithStar (modelLine ⟨"localai", "rwkv", false⟩) = false :=
  ⟨(modelsList_star_iff_installed
      [⟨"localai", "bert", true⟩, ⟨"localai", "rwkv", false⟩]).1,
   (modelsList_star_iff_installed
      [⟨"localai", "bert", true⟩, ⟨"localai", "rwkv", false⟩]).2
     (⟨"localai", "bert", true⟩, modelLine ⟨"localai", "bert", true⟩) (by decide),
   (modelsList_star_iff_installed
      [⟨"localai", "bert", true⟩, ⟨"localai", "rwkv", false⟩]).2
     (⟨"localai", "rwkv", false⟩, modelLine ⟨"localai", "rwkv", false⟩) (by decide)⟩

/-- C6: with the preload-backend-only flag set (and the invocation reaching
that branch: p2p discovery not failing, watchdog timeouts parsing, every
external-backend entry well formed), `RunCMD.Run` performs the startup step
and returns its result directly, without constructing the HTTP application
and without listening on any address. -/
theorem preloadBackendOnly_skips_http (cfg : RunCfg)
    (parseDuration : String → Except String Nat)
    (p2pDiscoveryErr startupErr httpAppErr listenErr : Option String)
    (registered : List (String × String))
    (hpre : cfg.preloadBackendOnly = true)
    (hp2p : (if cfg.peer2peer then p2pDiscoveryErr else none) = none)
    (hidle : (if cfg.enableWatchdogIdle then
        (parseDuration cfg.watchdogIdleTimeout).map (fun _ => ())
      else Except.ok ()) = Except.ok ())
    (hbusy : (if cfg.enableWatchdogBusy then
        (parseDuration cfg.watchdogBusyTimeout).map (fun _ => ())
      else Except.ok ()) = Except.ok ())
    (hext : registerExternalBackends cfg.externalGRPCBackends = some registered) :
    RunCMD.Run cfg parseDuration p2pDiscoveryErr startupErr httpAppErr listenErr =
      { externalBackends := registered
        effects := [RunEffect.startupStep]
        result := match startupErr with
          | some e => RunResult.error e
          | none => RunResult.ok } ∧
    RunEffect.httpConstruct ∉
      (RunCMD.Run cfg parseDuration p2pDiscoveryErr startupErr httpAppErr listenErr).effects ∧
    ∀ a, RunEffect.listen a ∉
      (RunCMD.Run cfg parseDuration p2pDiscoveryErr startupErr httpAppErr listenErr).effects := by
  have h1 : RunCMD.Run cfg parseDuration p2pDiscoveryErr startupErr httpAppErr listenErr =
      { externalBackends := registered
        effects := [RunEffect.startupStep]
        result := match startupErr with
          | some e => RunResult.error e
          | none => RunResult.ok } := by
    unfold RunCMD.Run
    rw [hp2p, hidle, hbusy, hext, hpre]
    simp
  refine ⟨h1, ?_, ?_⟩
  · rw [h1]; simp
  · intro a; rw [h1]; simp

/-- C6 witness: `preloadBackendOnly_skips_http` at a concrete configuration
with the flag set, one external backend, no watchdog and no p2p, whose
startup fails. -/
theorem preloadBackendOnly_skips_http_witness :
    RunCMD.Run ⟨false, false, "15m", false, "5m", ["llama:127.0.0.1:9000"], true, ":8080"⟩
        (fun _ => Except.ok 0) none (some "no backends") none none =
      { externalBackends := [("llama", "127.0.0.1:9000")]
        effects := [RunEffect.startupStep]
        result := match (some "no backends" : Option String) with
          | some e => RunResult.error e
          | none => RunResult.ok } ∧
    RunEffect.httpConstruct ∉
      (RunCMD.Run ⟨false, false, "15m", false, "5m", ["llama:127.0.0.1:9000"], true, ":8080"⟩
        (fun _ => Except.ok 0) none (some "no backends") none none).effects ∧
    ∀ a, RunEffect.listen a ∉
      (RunCMD.Run ⟨false, false, "15m", false, "5m", ["llama:127.0.0.1:9000"], true, ":8080"⟩
        (fun _ => Except.ok 0) none (some "no backends") none none).effects :=
  preloadBackendOnly_skips_http
    ⟨false, false, "15m", false, "5m", ["llama:127.0.0.1:9000"], true, ":8080"⟩
    (fun _ => Except.ok 0) none (some "no backends") none none
    [("llama", "127.0.0.1:9000")] rfl rfl rfl rfl (by decide)

/-- C7 counterexample: a shutdown triggered by an interrupt/termination
signal (here with the run command otherwise ending cleanly) exits with
status 1, not 0 — the signal-handler goroutine calls `os.Exit(1)`. -/
theorem mainExit_signal_counterexample : ¬ mainExitStatus true none = 0 := by
  decide

/-- C7 amended: the process exits with status 0 on a normal shutdown not
triggered by a signal, with status 1 whenever an interrupt or termination
signal arrives, and with a non-zero status on a startup failure. -/
theorem mainExit_amended (runErr : Option String) (e : String) :
    mainExitStatus false none = 0 ∧
    mainExitStatus true runErr = 1 ∧
    mainExitStatus false (some e) ≠ 0 := by
  refine ⟨rfl, rfl, ?_⟩
  simp [mainExitStatus]

/-- C8: an external-gRPC-backend entry holding a `':'` splits into the
substring before the first `':'` (the backend name, itself colon-free) and
the substring after it (the address); an entry without `':'` makes the
loop iteration panic (`none`), so a list containing such an entry makes
the whole registration loop — and with it the run command — die instead
of terminating normally. -/
theorem externalBackendEntry_spec (v : String) :
    (∀ b u, splitExternalBackendEntry v = some (b, u) →
        v = b ++ ":" ++ u ∧ ':' ∉ b.data) ∧
    (splitExternalBackendEntry v = none ↔ ':' ∉ v.data) ∧
    (∀ entries, v ∈ entries → ':' ∉ v.data →
        registerExternalBackends entries = none) := by
  refine ⟨?_, splitExternalBackendEntry_eq_none_iff v, ?_⟩
  · intro b u h
    unfold splitExternalBackendEntry at h
    cases hs : splitAtFirstColon v.data with
    | none => rw [hs] at h; cases h
    | some p =>
      obtain ⟨b0, u0⟩ := p
      rw [hs] at h
      injection h with h
      injection h with hb hu
      obtain ⟨hl, hnb⟩ := splitAtFirstColon_eq_some _ _ _ hs
      subst hb; subst hu
      constructor
      · apply String.ext
        simpa [String.data_append] using hl
      · simpa using hnb
  · intro entries hmem hcol
    rw [registerExternalBackends_eq_none_iff]
    exact ⟨v, hmem, hcol⟩

/-- C8 witness: `externalBackendEntry_spec` at the well-formed entry
`"llama:127.0.0.1:9000"` and at the malformed entry `"nocolon"`. -/
theorem externalBackendEntry_spec_witness :
    (("llama:127.0.0.1:9000" : String) = "llama" ++ ":" ++ "127.0.0.1:9000" ∧
      ':' ∉ ("llama" : String).data) ∧
    registerExternalBackends ["nocolon"] = none :=
  ⟨(externalBackendEntry_spec "llama:127.0.0.1:9000").1 "llama" "127.0.0.1:9000"
      (by decide),
   (externalBackendEntry_spec "nocolon").2.2 ["nocolon"] (by decide) (by decide)⟩

/-- C9: adding a gallery with a fresh name succeeds, but the response body
is the gallery list marshalled before the append, so the new gallery is
absent from the response while present in the in-memory list afterwards;
adding a gallery whose name is already registered fails and leaves the
list unchanged. -/
theorem addGallery_response_lags_state (galleries : List Gallery)
    (input : Gallery) :
    ((∀ g ∈ galleries, g.name ≠ input.name) →
      AddModelGalleryEndpoint galleries input =
        (Except.ok galleries, galleries ++ [input]) ∧
      input ∉ galleries ∧ input ∈ galleries ++ [input]) ∧
    ((∃ g ∈ galleries, g.name = input.name) →
      AddModelGalleryEndpoint galleries input =
        (Except.error (input.name ++ " already exists"), galleries)) := by
  constructor
  · intro h
    have hany : galleries.any (fun g => g.name = input.name) = false := by
      simp only [List.any_eq_false, decide_eq_true_eq]
      exact fun g hg => h g hg
    refine ⟨?_, ?_, ?_⟩
    · unfold AddModelGalleryEndpoint; rw [hany]; simp
    · intro hmem; exact h input hmem rfl
    · simp
  · rintro ⟨g, hg, hname⟩
    have hany : galleries.any (fun g => g.name = input.name) = true := by
      rw [List.any_eq_true]
      exact ⟨g, hg, by simp [hname]⟩
    unfold AddModelGalleryEndpoint; rw [hany]; simp

/-- C9 witness: `addGallery_response_lags_state` adding a fresh gallery
`"community"` and a duplicate gallery `"localai"` to a one-element list. -/
theorem addGallery_response_lags_state_witness :
    (AddModelGalleryEndpoint [⟨"localai", "https://example.com/index.yaml"⟩]
        ⟨"community", "https://example.org/g.yaml"⟩ =
      (Except.ok [⟨"localai", "https://example.com/index.yaml"⟩],
       [⟨"localai", "https://example.com/index.yaml"⟩] ++
         [⟨"community", "https://example.org/g.yaml"⟩]) ∧
     (⟨"community", "https://example.org/g.yaml"⟩ : Gallery) ∉
       [(⟨"localai", "https://example.com/index.yaml"⟩ : Gallery)] ∧
     (⟨"community", "https://example.org/g.yaml"⟩ : Gallery) ∈
       [(⟨"localai", "https://example.com/index.yaml"⟩ : Gallery)] ++
         [⟨"community", "https://example.org/g.yaml"⟩]) ∧
    AddModelGalleryEndpoint [⟨"localai", "https://example.com/index.yaml"⟩]
        ⟨"localai", "https://dup.example.com"⟩ =
      (Except.error ("localai" ++ " already exists"),
       [⟨"localai", "https://example.com/index.yaml"⟩]) :=
  ⟨(addGallery_response_lags_state
      [⟨"localai", "https://example.com/index.yaml"⟩]
      ⟨"community", "https://example.org/g.yaml"⟩).1 (by decide),
   (addGallery_response_lags_state
      [⟨"localai", "https://example.com/index.yaml"⟩]
      ⟨"localai", "https://dup.example.com"⟩).2
     ⟨⟨"localai", "https://example.com/index.yaml"⟩, by decide, rfl⟩⟩

end LocalAI
